import Mathlib

/-!
Shallow embedding of the EquipmentLoan plugin's loan-lifecycle and
authorization logic (src/equipmentloan/models.py, permissions.py, views.py).
Datetimes are modelled as integers; Django model instances become Lean
structures; HTTP endpoint handlers become functions returning
`Except Nat loan` where the error carries the HTTP status code.
-/

/-- The status choices of `EquipmentLoan.LOAN_STATUS_CHOICES` (models.py). -/
inductive LoanStatus where
  | active
  | returned
  | overdue
  | lost
deriving DecidableEq, Repr

/-- The `EquipmentLoan` Django model (models.py). `borrower` and
`created_by` are user ids; datetimes are integers; nullable datetime
fields are `Option Int`. -/
structure EquipmentLoan where
  borrower : Nat
  part_id : Int
  part_name : String
  quantity : Int
  date_borrowed : Int
  date_due : Option Int
  date_returned : Option Int
  status : LoanStatus
  notes : String
  return_notes : String
  created_by : Option Nat
deriving DecidableEq, Repr

/-- `EquipmentLoan.is_overdue` (models.py lines 106-112), with the call to
`timezone.now()` made an explicit parameter. Python truthiness of a
nullable datetime field is `Option.isSome`; a datetime object is always
truthy. -/
def EquipmentLoan.is_overdue (loan : EquipmentLoan) (now : Int) : Bool :=
  if loan.date_returned.isSome || loan.status == LoanStatus.returned then
    false
  else
    match loan.date_due with
    | some d => decide (now > d)
    | none => false

/-- `EquipmentLoan.mark_returned` (models.py lines 114-119): sets
`date_returned = now`, `status = returned`, stores the return notes. -/
def EquipmentLoan.mark_returned (loan : EquipmentLoan) (now : Int)
    (rnotes : String) : EquipmentLoan :=
  { loan with
    date_returned := some now
    status := LoanStatus.returned
    return_notes := rnotes }

/-- `EquipmentLoan.mark_lost` (models.py lines 121-124): sets
`status = lost` and nothing else. -/
def EquipmentLoan.mark_lost (loan : EquipmentLoan) : EquipmentLoan :=
  { loan with status := LoanStatus.lost }

/-- A Django `User` as the permission code reads it: authentication flag,
staff/superuser flags, and group names. -/
structure User where
  id : Nat
  is_authenticated : Bool
  is_staff : Bool
  is_superuser : Bool
  groups : List String
deriving DecidableEq, Repr

/-- The plugin's settings consulted by the permission code (core.py
SETTINGS): `EQUIPMENTLOAN_LOAN_EQUIPMENT` (bool) and
`EQUIPMENTLOAN_ALLOWED_GROUPS` (a comma-separated string). -/
structure Plugin where
  loan_equipment : Bool
  allowed_groups : String
  require_admin_approval : Bool
deriving DecidableEq, Repr

/-- The list comprehension of `get_allowed_groups_for_loans`
(permissions.py lines 25-27): the stripped, non-empty comma-separated
names of the `EQUIPMENTLOAN_ALLOWED_GROUPS` setting. -/
def parsed_allowed_groups (p : Plugin) : List String :=
  ((p.allowed_groups.splitOn ",").map String.trim).filter (fun s => s != "")

/-- `get_allowed_groups_for_loans` (permissions.py lines 9-28): `None`
when the setting is empty or parses to no names, else the parsed list. -/
def get_allowed_groups_for_loans (p : Plugin) : Option (List String) :=
  if p.allowed_groups == "" then
    none
  else
    let group_names := parsed_allowed_groups p
    if group_names.isEmpty then none else some group_names

/-- `user_can_register_loan` (permissions.py lines 31-63). The Python
`user` argument may be `None`, hence `Option User`. -/
def user_can_register_loan (user : Option User) (p : Plugin) : Bool :=
  match user with
  | none => false
  | some u =>
    if !u.is_authenticated then false
    else if !p.loan_equipment then false
    else if u.is_superuser || u.is_staff then true
    else
      match get_allowed_groups_for_loans p with
      | none => true
      | some allowed => u.groups.any (fun g => allowed.contains g)

/-- `user_can_approve_loan` (permissions.py lines 66-81). -/
def user_can_approve_loan (user : Option User) (_p : Plugin) : Bool :=
  match user with
  | none => false
  | some u =>
    if !u.is_authenticated then false
    else u.is_staff || u.is_superuser

/-- `user_can_manage_loan` (permissions.py lines 84-104): the Python
`loan.borrower == user` comparison is borrower-id equality. -/
def user_can_manage_loan (user : Option User) (loan : EquipmentLoan)
    (_p : Plugin) : Bool :=
  match user with
  | none => false
  | some u =>
    if !u.is_authenticated then false
    else if u.is_superuser || u.is_staff then true
    else loan.borrower == u.id

/-- The fields of a create request the `create` view and the
`EquipmentLoanSerializer` read; `Option` marks absence of a key in
`request.data`. Besides `part_id`, `part_name`, `quantity`, `date_due`
and `notes`, the serializer's `fields` list also makes `status`,
`date_returned` and `return_notes` writable (serializers.py lines 48-76:
none of them is in `read_only_fields`), so a create payload may supply
them. `borrower` and `created_by` are overwritten by the view with the
requesting user's id and are not request inputs here. -/
structure CreateRequest where
  part_id : Option Int
  part_name : Option String
  quantity : Option Int
  date_due : Option Int
  notes : String
  status : Option LoanStatus
  date_returned : Option Int
  return_notes : Option String
deriving DecidableEq, Repr

/-- `EquipmentLoanViewSet.create` (views.py lines 64-102): permission
check via `user_can_register_loan`, presence check of `part_id` and
`part_name`, then the ModelSerializer saves the loan. The serializer
stores the writable payload fields as supplied, applying the model
defaults for absent ones (`quantity = 1`, `status = "active"`,
`date_returned = null`, `return_notes = ""`); it performs no range
validation on `quantity`. Errors carry the HTTP status code
(403 forbidden, 400 bad request). -/
def viewset_create (ruser : User) (p : Plugin) (req : CreateRequest)
    (now : Int) : Except Nat EquipmentLoan :=
  if !user_can_register_loan (some ruser) p then
    Except.error 403
  else
    match req.part_id, req.part_name with
    | some pid, some pname =>
      Except.ok
        { borrower := ruser.id
          part_id := pid
          part_name := pname
          quantity := req.quantity.getD 1
          date_borrowed := now
          date_due := req.date_due
          date_returned := req.date_returned
          status := req.status.getD LoanStatus.active
          notes := req.notes
          return_notes := req.return_notes.getD ""
          created_by := some ruser.id }
    | _, _ => Except.error 400

/-- `EquipmentLoanViewSet.mark_returned` (views.py lines 108-132):
403 unless the actor is staff or the loan's borrower; otherwise calls
`loan.mark_returned` unconditionally — there is no status check. -/
def viewset_mark_returned (ruser : User) (loan : EquipmentLoan)
    (rnotes : String) (now : Int) : Except Nat EquipmentLoan :=
  if !ruser.is_staff && loan.borrower != ruser.id then
    Except.error 403
  else
    Except.ok (loan.mark_returned now rnotes)

/-- `EquipmentLoanViewSet.mark_lost` (views.py lines 134-157): 403 unless
the actor is staff; otherwise calls `loan.mark_lost` unconditionally —
there is no status check and no borrower exemption. -/
def viewset_mark_lost (ruser : User) (loan : EquipmentLoan) :
    Except Nat EquipmentLoan :=
  if !ruser.is_staff then
    Except.error 403
  else
    Except.ok loan.mark_lost

/-- `EquipmentLoanViewSet.extend_due_date` (views.py lines 159-190):
403 unless the actor is staff or the borrower; 400 when `date_due` is
absent; otherwise replaces `date_due` unconditionally — there is no
status check. -/
def viewset_extend_due_date (ruser : User) (loan : EquipmentLoan)
    (new_due_date : Option Int) : Except Nat EquipmentLoan :=
  if !ruser.is_staff && loan.borrower != ruser.id then
    Except.error 403
  else
    match new_due_date with
    | none => Except.error 400
    | some d => Except.ok { loan with date_due := some d }

/-- Loans reachable through the lifecycle endpoints: created by
`viewset_create` or obtained from a reachable loan by a successful
`mark_returned`, `mark_lost` or `extend_due_date` call. -/
inductive Reachable : EquipmentLoan → Prop where
  | created (u : User) (p : Plugin) (req : CreateRequest) (now : Int)
      (loan : EquipmentLoan) :
      viewset_create u p req now = Except.ok loan → Reachable loan
  | returned (u : User) (loan loan' : EquipmentLoan) (rnotes : String)
      (now : Int) :
      Reachable loan →
      viewset_mark_returned u loan rnotes now = Except.ok loan' →
      Reachable loan'
  | lost (u : User) (loan loan' : EquipmentLoan) :
      Reachable loan →
      viewset_mark_lost u loan = Except.ok loan' →
      Reachable loan'
  | extended (u : User) (loan loan' : EquipmentLoan) (d : Option Int) :
      Reachable loan →
      viewset_extend_due_date u loan d = Except.ok loan' →
      Reachable loan'

/-- Loans reachable through the lifecycle endpoints when every create
payload leaves the serializer's writable `status` and `date_returned`
fields absent, matching the spec's Register signature
`Register(borrower, part_id, part_name, quantity, notes)`. -/
inductive ReachablePlain : EquipmentLoan → Prop where
  | created (u : User) (p : Plugin) (req : CreateRequest) (now : Int)
      (loan : EquipmentLoan) :
      req.status = none → req.date_returned = none →
      viewset_create u p req now = Except.ok loan → ReachablePlain loan
  | returned (u : User) (loan loan' : EquipmentLoan) (rnotes : String)
      (now : Int) :
      ReachablePlain loan →
      viewset_mark_returned u loan rnotes now = Except.ok loan' →
      ReachablePlain loan'
  | lost (u : User) (loan loan' : EquipmentLoan) :
      ReachablePlain loan →
      viewset_mark_lost u loan = Except.ok loan' →
      ReachablePlain loan'
  | extended (u : User) (loan loan' : EquipmentLoan) (d : Option Int) :
      ReachablePlain loan →
      viewset_extend_due_date u loan d = Except.ok loan' →
      ReachablePlain loan'

/-! ### Concrete fixtures used by counterexamples and witnesses -/

/-- A staff actor. -/
def exStaff : User :=
  { id := 1, is_authenticated := true, is_staff := true
    is_superuser := false, groups := [] }

/-- A plain authenticated borrower (non-staff, non-superuser, no groups). -/
def exBorrower : User :=
  { id := 2, is_authenticated := true, is_staff := false
    is_superuser := false, groups := [] }

/-- A plugin configuration with the feature enabled and no group
restriction. -/
def exPlugin : Plugin :=
  { loan_equipment := true, allowed_groups := ""
    require_admin_approval := false }

/-- A loan already in the terminal state `lost`. -/
def exLostLoan : EquipmentLoan :=
  { borrower := 2, part_id := 7, part_name := "Drill", quantity := 1
    date_borrowed := 0, date_due := some 5, date_returned := none
    status := LoanStatus.lost, notes := "", return_notes := ""
    created_by := some 2 }

/-- A loan already in the terminal state `returned`. -/
def exReturnedLoan : EquipmentLoan :=
  { borrower := 2, part_id := 7, part_name := "Drill", quantity := 1
    date_borrowed := 0, date_due := some 5, date_returned := some 3
    status := LoanStatus.returned, notes := "", return_notes := "ok"
    created_by := some 2 }

/-- An active loan with a due date. -/
def exActiveLoan : EquipmentLoan :=
  { borrower := 2, part_id := 7, part_name := "Drill", quantity := 1
    date_borrowed := 0, date_due := some 5, date_returned := none
    status := LoanStatus.active, notes := "", return_notes := ""
    created_by := some 2 }

/-- An unauthenticated actor carrying staff and superuser flags. -/
def exGhost : User :=
  { id := 3, is_authenticated := false, is_staff := true
    is_superuser := true, groups := [] }

/-- A well-formed create request for one drill due at time 5, leaving
the writable `status`, `date_returned` and `return_notes` fields
absent. -/
def exReq : CreateRequest :=
  { part_id := some 7, part_name := some "Drill", quantity := some 1
    date_due := some 5, notes := "", status := none
    date_returned := none, return_notes := none }

/-- A create request asking for quantity 0. -/
def exReqQty0 : CreateRequest :=
  { part_id := some 7, part_name := some "Drill", quantity := some 0
    date_due := none, notes := "", status := none
    date_returned := none, return_notes := none }

/-- A create request whose payload supplies the writable `status` field
with the value `returned` while leaving `date_returned` absent. -/
def exPayloadReq : CreateRequest :=
  { part_id := some 7, part_name := some "Drill", quantity := some 1
    date_due := some 5, notes := "", status := some LoanStatus.returned
    date_returned := none, return_notes := none }

/-- The loan `exPayloadReq` creates: status `returned` with
`date_returned` null. -/
def exPayloadLoan : EquipmentLoan :=
  { exActiveLoan with status := LoanStatus.returned }

/-- The loan obtained by marking `exReturnedLoan` lost: status `lost`
with `date_returned` still set. -/
def exBrokenLoan : EquipmentLoan :=
  { exReturnedLoan with status := LoanStatus.lost }

/-! ### Claim theorems -/

/-- C3 counterexample: a loan with status `lost`, no `date_returned`, and
a past due date is reported overdue by `is_overdue`, although the claim
says `IsOverdue` is true only when `status == active`. -/
theorem C3_counterexample :
    exLostLoan.status ≠ LoanStatus.active ∧
    exLostLoan.is_overdue 10 = true := by
  decide

/-- C3 amended: `IsOverdue(loan, now)` is true iff `date_returned` is
unset, `status ≠ returned`, `date_due` is set, and `now > date_due`
(the code tests "not returned", not "active"). -/
theorem C3_amended_is_overdue_iff (loan : EquipmentLoan) (now : Int) :
    loan.is_overdue now = true ↔
    (loan.date_returned = none ∧ loan.status ≠ LoanStatus.returned ∧
      ∃ d, loan.date_due = some d ∧ now > d) := by
  rcases loan with ⟨b, pid, pn, q, db, dd, dr, st, n, rn, cb⟩
  rcases dr with _ | r <;> rcases dd with _ | d <;>
    by_cases hst : st = LoanStatus.returned <;>
    simp [EquipmentLoan.is_overdue, hst]

/-- C7: whenever `date_due` is unset, `is_overdue` returns false for
every `now`, as the claim states. -/
theorem C7_no_due_date_never_overdue (loan : EquipmentLoan) (now : Int)
    (h : loan.date_due = none) :
    loan.is_overdue now = false := by
  unfold EquipmentLoan.is_overdue
  rw [h]
  by_cases hc : loan.date_returned.isSome || loan.status == LoanStatus.returned <;>
    simp [hc]

/-- C7 witness: the theorem applied to a concrete loan without a due
date. -/
theorem C7_witness :
    ({ exActiveLoan with date_due := none } : EquipmentLoan).is_overdue 100 = false :=
  C7_no_due_date_never_overdue { exActiveLoan with date_due := none } 100 rfl

/-- C10: whenever `date_returned` is set, `is_overdue` returns false for
every `now`, regardless of `status` and `date_due`, as the claim
states. -/
theorem C10_returned_date_never_overdue (loan : EquipmentLoan) (now : Int)
    (h : loan.date_returned.isSome = true) :
    loan.is_overdue now = false := by
  unfold EquipmentLoan.is_overdue
  rw [h]
  simp

/-- C10 witness: the theorem applied to a concrete loan whose
`date_returned` is set but whose status is `active` and whose due date
has passed. -/
theorem C10_witness :
    ({ exActiveLoan with date_returned := some 3 } : EquipmentLoan).is_overdue 100 = false :=
  C10_returned_date_never_overdue
    { exActiveLoan with date_returned := some 3 } 100 rfl

/-! ### Helper lemmas about string parsing of the allowed-groups setting -/

/-- `takeWhileAux` on the empty string stops immediately. -/
theorem twa_empty_zero :
    Substring.takeWhileAux "" "".endPos Char.isWhitespace { byteIdx := 0 } =
    { byteIdx := 0 } := by
  rw [Substring.takeWhileAux]
  decide

/-- `takeRightWhileAux` on the empty string stops immediately. -/
theorem trwa_empty_zero :
    Substring.takeRightWhileAux "" { byteIdx := 0 } Char.isWhitespace
      "".endPos = { byteIdx := 0 } := by
  rw [Substring.takeRightWhileAux]
  decide

/-- Trimming the empty string yields the empty string. -/
theorem trim_empty : "".trim = "" := by
  unfold String.trim Substring.trim
  simp only [String.toSubstring]
  rw [twa_empty_zero, trwa_empty_zero]
  decide

/-- Splitting the empty string on a comma yields one empty piece. -/
theorem splitOn_comma_empty : "".splitOn "," = [""] := by
  rw [String.splitOn, if_neg (by decide), String.splitOnAux, if_pos (by decide)]
  decide

/-- An empty allowed-groups setting parses to no group names. -/
theorem parsed_allowed_groups_of_empty (p : Plugin)
    (h : p.allowed_groups = "") :
    parsed_allowed_groups p = [] := by
  unfold parsed_allowed_groups
  rw [h, splitOn_comma_empty]
  simp [trim_empty]

/-- `get_allowed_groups_for_loans` returns `None` exactly when the
setting parses to no group names. -/
theorem get_allowed_groups_none_iff (p : Plugin) :
    get_allowed_groups_for_loans p = none ↔ parsed_allowed_groups p = [] := by
  unfold get_allowed_groups_for_loans
  by_cases h : p.allowed_groups = ""
  · simp [h, parsed_allowed_groups_of_empty p h]
  · rcases hl : parsed_allowed_groups p with _ | ⟨a, l⟩ <;> simp [h, hl]

/-- When `get_allowed_groups_for_loans` returns a list, it is the
(non-empty) parsed list. -/
theorem get_allowed_groups_some (p : Plugin) (l : List String)
    (h : get_allowed_groups_for_loans p = some l) :
    l = parsed_allowed_groups p ∧ parsed_allowed_groups p ≠ [] := by
  unfold get_allowed_groups_for_loans at h
  by_cases he : p.allowed_groups = ""
  · simp [he] at h
  · rcases hl : parsed_allowed_groups p with _ | ⟨a, t⟩ <;> simp [he, hl] at h
    simp [hl, ← h]

/-- C5: `user_can_register_loan` is true iff the actor exists and is
authenticated, the loan feature is enabled, and the actor is staff or
superuser, or the allowed-groups setting parses to an empty list, or the
actor belongs to one of the parsed allowed groups. -/
theorem C5_can_register_iff (a : Option User) (p : Plugin) :
    user_can_register_loan a p = true ↔
    ∃ u, a = some u ∧ u.is_authenticated = true ∧ p.loan_equipment = true ∧
      (u.is_staff = true ∨ u.is_superuser = true ∨
       parsed_allowed_groups p = [] ∨
       ∃ g, g ∈ u.groups ∧ g ∈ parsed_allowed_groups p) := by
  cases a with
  | none => simp [user_can_register_loan]
  | some u =>
    simp only [user_can_register_loan, Option.some.injEq]
    by_cases hauth : u.is_authenticated <;>
      by_cases hen : p.loan_equipment <;>
      by_cases hsup : u.is_superuser <;>
      by_cases hst : u.is_staff <;>
      rcases hget : get_allowed_groups_for_loans p with _ | allowed <;>
      simp [hauth, hen, hsup, hst, hget,
        (get_allowed_groups_none_iff p).mp, List.contains, List.elem_iff]
    obtain ⟨hpe, hne⟩ := get_allowed_groups_some p allowed hget
    subst hpe
    simp [hne]

/-- C1 counterexample: on loans in the terminal states `lost` and
`returned`, the Return, MarkLost and ExtendDueDate endpoints all succeed
for a staff actor instead of failing with `InvalidTransition`: the code
never checks the loan's status. -/
theorem C1_counterexample :
    exLostLoan.status = LoanStatus.lost ∧
    exReturnedLoan.status = LoanStatus.returned ∧
    (viewset_mark_returned exStaff exLostLoan "again" 9).isOk = true ∧
    (viewset_mark_lost exStaff exReturnedLoan).isOk = true ∧
    (viewset_extend_due_date exStaff exLostLoan (some 9)).isOk = true := by
  exact ⟨rfl, rfl, rfl, rfl, rfl⟩

/-- C1 amended: none of Return, MarkLost and ExtendDueDate checks the
loan's status. Whenever the endpoint's authorization check passes —
staff or the loan's borrower for Return and ExtendDueDate, staff for
MarkLost — and, for ExtendDueDate, a new due date is supplied, the
operation succeeds on a loan of any status, terminal states included. -/
theorem C1_amended_no_status_check (u : User) (loan : EquipmentLoan)
    (rnotes : String) (now d : Int) :
    ((u.is_staff = true ∨ loan.borrower = u.id) →
      (viewset_mark_returned u loan rnotes now).isOk = true ∧
      (viewset_extend_due_date u loan (some d)).isOk = true) ∧
    (u.is_staff = true → (viewset_mark_lost u loan).isOk = true) := by
  constructor
  · rintro (h | h) <;>
      simp [viewset_mark_returned, viewset_extend_due_date, h,
        Except.isOk, Except.toBool]
  · intro h
    simp [viewset_mark_lost, h, Except.isOk, Except.toBool]

/-- C1 witness: the amended theorem applied to the non-staff borrower
Returning and extending a loan in the terminal state `lost`, and to a
staff actor marking a returned loan lost. -/
theorem C1_amended_witness :
    ((viewset_mark_returned exBorrower exLostLoan "x" 9).isOk = true ∧
     (viewset_extend_due_date exBorrower exLostLoan (some 9)).isOk = true) ∧
    (viewset_mark_lost exStaff exReturnedLoan).isOk = true := by
  refine ⟨(C1_amended_no_status_check exBorrower exLostLoan "x" 9 9).1
    (Or.inr rfl), ?_⟩
  exact (C1_amended_no_status_check exStaff exReturnedLoan "x" 9 9).2 rfl

/-- C2 counterexample: reachable loans violating the claimed invariant
in both directions. Register, then Return, then MarkLost yields a loan
with status `lost` whose `date_returned` is still set, because
`mark_lost` does not clear `date_returned` and no status check prevents
it from running on a returned loan; and Register alone, with the
serializer's writable `status` field supplied as `returned` in the
payload, yields a loan with status `returned` and `date_returned`
null. -/
theorem C2_counterexample :
    (Reachable exBrokenLoan ∧
      ¬(exBrokenLoan.date_returned.isSome = true ↔
        exBrokenLoan.status = LoanStatus.returned)) ∧
    (Reachable exPayloadLoan ∧
      ¬(exPayloadLoan.date_returned.isSome = true ↔
        exPayloadLoan.status = LoanStatus.returned)) := by
  refine ⟨⟨?_, by decide⟩, ⟨?_, by decide⟩⟩
  · exact Reachable.lost exStaff exReturnedLoan exBrokenLoan
      (Reachable.returned exBorrower exActiveLoan exReturnedLoan "ok" 3
        (Reachable.created exBorrower exPlugin exReq 0 exActiveLoan rfl)
        rfl)
      rfl
  · exact Reachable.created exBorrower exPlugin exPayloadReq 0
      exPayloadLoan rfl

/-- C2 amended: when every Register payload omits the writable `status`
and `date_returned` fields — the spec's Register signature — only the
forward direction of the claimed invariant holds of reachable loans:
`status == returned` implies `date_returned` is set. The converse
fails, and so does the forward direction under unrestricted create
payloads (see the counterexample). -/
theorem C2_amended_returned_implies_date_set (loan : EquipmentLoan)
    (h : ReachablePlain loan) :
    loan.status = LoanStatus.returned → loan.date_returned.isSome = true := by
  induction h with
  | created u p req now loan hs1 hs2 hc =>
    intro hs
    exfalso
    unfold viewset_create at hc
    split at hc
    · exact absurd hc (by simp)
    · split at hc
      · injection hc with hc'
        rw [← hc'] at hs
        simp [hs1] at hs
      · exact absurd hc (by simp)
  | returned u loan loan' rnotes now hr hstep ih =>
    intro _
    unfold viewset_mark_returned at hstep
    split at hstep
    · exact absurd hstep (by simp)
    · injection hstep with hc'
      rw [← hc']
      rfl
  | lost u loan loan' hr hstep ih =>
    intro hs
    unfold viewset_mark_lost at hstep
    split at hstep
    · exact absurd hstep (by simp)
    · injection hstep with hc'
      rw [← hc'] at hs
      exact absurd hs (by simp [EquipmentLoan.mark_lost])
  | extended u loan loan' d hr hstep ih =>
    intro hs
    unfold viewset_extend_due_date at hstep
    split at hstep
    · exact absurd hstep (by simp)
    · split at hstep
      · exact absurd hstep (by simp)
      · injection hstep with hc'
        rw [← hc'] at hs ⊢
        exact ih hs

/-- C2 witness: the amended theorem applied to the concrete returned
loan reached by a plain Register followed by Return. -/
theorem C2_amended_witness : exReturnedLoan.date_returned.isSome = true :=
  C2_amended_returned_implies_date_set exReturnedLoan
    (ReachablePlain.returned exBorrower exActiveLoan exReturnedLoan "ok" 3
      (ReachablePlain.created exBorrower exPlugin exReq 0 exActiveLoan
        rfl rfl rfl)
      rfl)
    rfl

/-- C4 counterexample: Register with quantity 0 succeeds — the view and
the serializer perform no range validation on `quantity` — although the
claim says it fails with `ValidationError`. -/
theorem C4_counterexample :
    exReqQty0.quantity = some 0 ∧
    viewset_create exBorrower exPlugin exReqQty0 0 = Except.ok
      { borrower := 2, part_id := 7, part_name := "Drill", quantity := 0
        date_borrowed := 0, date_due := none, date_returned := none
        status := LoanStatus.active, notes := "", return_notes := ""
        created_by := some 2 } :=
  ⟨rfl, rfl⟩

/-- C4 amended: given permission, Register fails with a 400 validation
error when `part_id` or `part_name` is absent, but `quantity` is never
validated: when both parts are present the request succeeds for every
quantity value, storing the requested quantity (default 1 when absent). -/
theorem C4_amended_validation (u : User) (p : Plugin) (req : CreateRequest)
    (now : Int) (hperm : user_can_register_loan (some u) p = true) :
    ((req.part_id.isNone ∨ req.part_name.isNone) →
      viewset_create u p req now = Except.error 400) ∧
    (∀ pid pname, req.part_id = some pid → req.part_name = some pname →
      ∃ loan, viewset_create u p req now = Except.ok loan ∧
        loan.quantity = req.quantity.getD 1) := by
  unfold viewset_create
  rw [hperm]
  constructor
  · intro habs
    rcases hp : req.part_id with _ | pid <;>
      rcases hn : req.part_name with _ | pname <;>
      simp [hp, hn] at habs ⊢
  · intro pid pname hp hn
    rw [hp, hn]
    exact ⟨_, rfl, rfl⟩

/-- C4 witness: the amended theorem applied to a concrete request with
quantity 0, which is accepted and stored. -/
theorem C4_amended_witness :
    ∃ loan, viewset_create exBorrower exPlugin exReqQty0 0 = Except.ok loan ∧
      loan.quantity = exReqQty0.quantity.getD 1 :=
  (C4_amended_validation exBorrower exPlugin exReqQty0 0 rfl).2 7 "Drill" rfl rfl

/-- C6: whenever the Return endpoint succeeds at time T, the resulting
loan has status `returned`, `date_returned = T`, and the supplied return
notes stored, as the claim states. -/
theorem C6_return_postcondition (u : User) (loan loan' : EquipmentLoan)
    (rnotes : String) (T : Int)
    (h : viewset_mark_returned u loan rnotes T = Except.ok loan') :
    loan'.status = LoanStatus.returned ∧ loan'.date_returned = some T ∧
    loan'.return_notes = rnotes := by
  unfold viewset_mark_returned at h
  split at h
  · exact absurd h (by simp)
  · injection h with h'
    rw [← h']
    exact ⟨rfl, rfl, rfl⟩

/-- C6 witness: the theorem applied to the borrower returning their own
active loan at time 3. -/
theorem C6_witness :
    exReturnedLoan.status = LoanStatus.returned ∧
    exReturnedLoan.date_returned = some 3 ∧
    exReturnedLoan.return_notes = "ok" :=
  C6_return_postcondition exBorrower exActiveLoan exReturnedLoan "ok" 3 rfl

/-- C8: the MarkLost endpoint returns 403 for every non-staff actor,
the loan's borrower included, while Return and ExtendDueDate succeed for
a non-staff borrower, as the claim states. -/
theorem C8_mark_lost_staff_only (u : User) (loan : EquipmentLoan)
    (rnotes : String) (now d : Int) :
    (u.is_staff = false → viewset_mark_lost u loan = Except.error 403) ∧
    (u.is_staff = false → loan.borrower = u.id →
      (viewset_mark_returned u loan rnotes now).isOk = true ∧
      (viewset_extend_due_date u loan (some d)).isOk = true) := by
  constructor
  · intro h
    simp [viewset_mark_lost, h]
  · intro h hb
    simp [viewset_mark_returned, viewset_extend_due_date, h, hb,
      Except.isOk, Except.toBool]

/-- C8 witness: the theorem applied to the non-staff borrower of a
concrete active loan. -/
theorem C8_witness :
    viewset_mark_lost exBorrower exActiveLoan = Except.error 403 ∧
    (viewset_mark_returned exBorrower exActiveLoan "n" 3).isOk = true ∧
    (viewset_extend_due_date exBorrower exActiveLoan (some 9)).isOk = true := by
  obtain ⟨h1, h2⟩ := C8_mark_lost_staff_only exBorrower exActiveLoan "n" 3 9
  exact ⟨h1 rfl, (h2 rfl rfl).1, (h2 rfl rfl).2⟩

/-- C9: for a null or unauthenticated actor, `user_can_approve_loan` and
`user_can_manage_loan` return false for every loan, regardless of the
staff/superuser flags and of borrower equality, as the claim states. -/
theorem C9_unauthenticated_denied (a : Option User) (loan : EquipmentLoan)
    (p : Plugin)
    (h : a = none ∨ ∃ u, a = some u ∧ u.is_authenticated = false) :
    user_can_approve_loan a p = false ∧
    user_can_manage_loan a loan p = false := by
  rcases h with h | ⟨u, ha, hu⟩
  · subst h
    exact ⟨rfl, rfl⟩
  · subst ha
    simp [user_can_approve_loan, user_can_manage_loan, hu]

/-- C9 witness: the theorem applied to an unauthenticated actor that has
both the staff and superuser flags set. -/
theorem C9_witness :
    user_can_approve_loan (some exGhost) exPlugin = false ∧
    user_can_manage_loan (some exGhost) exActiveLoan exPlugin = false :=
  C9_unauthenticated_denied (some exGhost) exActiveLoan exPlugin
    (Or.inr ⟨exGhost, rfl, rfl⟩)
